import Mathlib

/-!
Shallow embedding of the PSKT (Partially Signed Kaspa Transaction) role engine
exposed by `src/src/wallet/pskt/mod.rs`, together with the parts of the
underlying `kaspa_wallet_pskt` data model that the glue code manipulates.

The binding stores the role-tagged state in a shared slot
(`Arc<Mutex<Option<State>>>`); every operation takes the state out of the
slot, computes, and reinserts on success.  We model the slot as
`Option State` and each method as a function from the pre-call slot to the
post-call slot paired with the method's `Except` outcome.
-/

namespace KaspaPSKT

/-- UTXO entry attached to an input (amount, locking script, DAA score,
coinbase flag), used for signing and mass calculation. -/
structure UtxoEntry where
  amount : Nat
  scriptPublicKey : List Nat
  blockDaaScore : Nat
  isCoinbase : Bool
  deriving Repr, DecidableEq

/-- Outpoint: (transaction id, output index) identifying the consumed UTXO. -/
structure Outpoint where
  transactionId : Nat
  index : Nat
  deriving Repr, DecidableEq

/-- Per-input slot of the transaction skeleton
(`kaspa_wallet_pskt::pskt::Input` as used by the glue code: the fields the
source reads or writes are `redeem_script`, `sequence`, `final_script_sig`,
and the conversion data). -/
structure Input where
  previousOutpoint : Outpoint
  sequence : Option Nat
  sigOpCount : Nat
  redeemScript : Option (List Nat)
  partialSigs : List (Nat × List Nat)
  sighashType : Nat
  utxoEntry : UtxoEntry
  finalScriptSig : Option (List Nat)
  deriving Repr, DecidableEq

/-- Per-output slot of the transaction skeleton. -/
structure Output where
  value : Nat
  scriptPublicKey : List Nat
  deriving Repr, DecidableEq

/-- The transaction skeleton (`kaspa_wallet_pskt::pskt::Inner`): version,
lock time, fallback lock time, modifiability flags, ordered inputs and
outputs; `id` is the transaction id recorded by a successful finalize
(absent until finalize has run), the evidence `to_extractor` demands. -/
structure Inner where
  version : Nat
  lockTime : Nat
  fallbackLockTime : Option Nat
  inputsModifiable : Bool
  outputsModifiable : Bool
  inputs : List Input
  outputs : List Output
  id : Option Nat
  deriving Repr, DecidableEq

/-- The default skeleton (`PSKT::<Creator>::default()`): empty inputs and
outputs, zero version and lock time, no fallback lock time, nothing
modifiable, not finalized. -/
def Inner.default : Inner :=
  { version := 0, lockTime := 0, fallbackLockTime := none,
    inputsModifiable := false, outputsModifiable := false,
    inputs := [], outputs := [], id := none }

/-- The role-tagged state (`kaspa_wallet_pskt::wasm::pskt::State`): a tagged
union over the eight role variants, each wrapping one skeleton; `NoOp`
optionally holds an imported skeleton. -/
inductive State where
  | NoOp (inner : Option Inner)
  | Creator (inner : Inner)
  | Constructor (inner : Inner)
  | Updater (inner : Inner)
  | Signer (inner : Inner)
  | Combiner (inner : Inner)
  | Finalizer (inner : Inner)
  | Extractor (inner : Inner)
  deriving Repr, DecidableEq

/-- Modelled from the spec: `State::display` renders the human-readable
current role name (the role names of the transition table in the spec). -/
def State.display : State → String
  | .NoOp _ => "NoOp"
  | .Creator _ => "Creator"
  | .Constructor _ => "Constructor"
  | .Updater _ => "Updater"
  | .Signer _ => "Signer"
  | .Combiner _ => "Combiner"
  | .Finalizer _ => "Finalizer"
  | .Extractor _ => "Extractor"

/-- The skeleton held by a role-tagged state (`NoOp` may hold none). -/
def State.skeleton : State → Option Inner
  | .NoOp i => i
  | .Creator i => some i
  | .Constructor i => some i
  | .Updater i => some i
  | .Signer i => some i
  | .Combiner i => some i
  | .Finalizer i => some i
  | .Extractor i => some i

/-- Error taxonomy: the variants of `kaspa_wallet_pskt::wasm::error::Error`
that the glue code produces, plus `Exception` for the raw `PyException`
paths of `new` and `Panic` for `unwrap`/`panic!` reached on an empty slot. -/
inductive Err where
  | State (role : String)
  | ExpectedState (role : String)
  | CreateNotAllowed
  | NotInitialized
  | TxNotFinalized
  | Custom (msg : String)
  | Pskt (msg : String)
  | ConsensusClient (msg : String)
  | Exception (msg : String)
  | Panic (msg : String)
  deriving Repr, DecidableEq

/-- True exactly for the role-mismatch errors (`Error::State`, i.e. the
spec's WrongRole/WrongState, and `Error::ExpectedState`). -/
def Err.isRoleErr : Err → Bool
  | .State _ => true
  | .ExpectedState _ => true
  | _ => false

/-- True exactly for `Error::Custom`. -/
def Err.isCustom : Err → Bool
  | .Custom _ => true
  | _ => false

/-- True for `Except.ok`. -/
def isOkE {α : Type} : Except Err α → Bool
  | .ok _ => true
  | .error _ => false

/-- The shared state slot behind `Arc<Mutex<Option<State>>>`. -/
abbrev Slot := Option State

/-- The take-then-replace discipline of every mutating method:
`self.take()` removes the state from the slot (panicking if the slot is
empty), the transition computes the next state, and `self.replace` stores
it back only on success — on error the slot is left empty. -/
def withTake (slot : Slot) (f : State → Except Err State) :
    Slot × Except Err Unit :=
  match slot with
  | none => (none, .error (.Panic ("called unwrap on a None value")))
  | some st =>
    match f st with
    | .ok st2 => (some st2, .ok ())
    | .error e => (none, .error e)

/-- The client transaction input handed across the binding boundary
(`PyTransactionInput` wrapping `kaspa_consensus_client::TransactionInput`):
outpoint, optional signature script, sequence, sig-op count, optional UTXO
entry reference. -/
structure PyTransactionInput where
  previousOutpoint : Outpoint
  signatureScript : Option (List Nat)
  sequence : Nat
  sigOpCount : Nat
  utxo : Option UtxoEntry
  deriving Repr, DecidableEq

/-- The client transaction handed to `new`
(`PyTransaction` wrapping `kaspa_consensus_client::Transaction`). -/
structure PyTransaction where
  version : Nat
  lockTime : Nat
  inputs : List PyTransactionInput
  outputs : List Output
  deriving Repr, DecidableEq

/-- Network type (`kaspa_consensus_core::network::NetworkType`). -/
inductive NetworkType where
  | Mainnet
  | Testnet
  | Devnet
  | Simnet
  deriving Repr, DecidableEq

/-- Network identifier (`PyNetworkId`): a network type with an optional
numeric suffix; `calculate_mass` reads only the network type. -/
structure PyNetworkId where
  networkType : NetworkType
  suffix : Option Nat
  deriving Repr, DecidableEq

/-- Modelled from the spec: `TryFrom<TransactionInput> for Input` — the
conversion of a client input into a PSKT input slot.  The skeleton's
`utxo_entry` (amount, locking script, DAA score, coinbase flag) is required
for signing and mass calculation, so the conversion fails when the client
input carries no UTXO entry; otherwise the data is carried over losslessly
with no redeem script, no partial signatures and no final script. -/
def inputTryInto (i : PyTransactionInput) : Except Err Input :=
  match i.utxo with
  | none => .error (.ConsensusClient ("missing utxo entry"))
  | some u =>
    .ok { previousOutpoint := i.previousOutpoint, sequence := some i.sequence,
          sigOpCount := i.sigOpCount, redeemScript := none, partialSigs := [],
          sighashType := 1, utxoEntry := u, finalScriptSig := none }

/-- Modelled from the spec: `TryFrom<Transaction> for Inner` — lossless
conversion of the client transaction data model into a skeleton; fails when
any input fails to convert (malformed input data). -/
def txToInner (t : PyTransaction) : Except Err Inner :=
  match t.inputs.mapM inputTryInto with
  | .error _ => .error (.Exception ("Transaction to Inner failed"))
  | .ok ins =>
    .ok { version := t.version, lockTime := t.lockTime, fallbackLockTime := none,
          inputsModifiable := false, outputsModifiable := false,
          inputs := ins, outputs := t.outputs, id := none }

/-- Value of a hexadecimal digit character, if any. -/
def hexDigitVal (c : Char) : Option Nat :=
  if 48 ≤ c.toNat ∧ c.toNat ≤ 57 then some (c.toNat - 48)
  else if 97 ≤ c.toNat ∧ c.toNat ≤ 102 then some (c.toNat - 87)
  else if 65 ≤ c.toNat ∧ c.toNat ≤ 70 then some (c.toNat - 55)
  else none

/-- `hex::decode` on a character list: bytes from pairs of hex digits;
fails on an odd-length input or a non-hex character. -/
def hexDecodeList : List Char → Except String (List Nat)
  | [] => .ok []
  | [_] => .error ("Odd number of digits")
  | c1 :: c2 :: rest =>
    match hexDigitVal c1, hexDigitVal c2 with
    | some h, some l => (hexDecodeList rest).map (fun t => (16 * h + l) :: t)
    | _, _ => .error ("Invalid character")

/-- `hex::decode` on a string. -/
def hexDecode (s : String) : Except String (List Nat) :=
  hexDecodeList s.data

/-- Modelled from the spec: `Updater::set_sequence(value, input_index)` —
updates that input's sequence number in place and fails if `input_index` is
out of bounds. -/
def updaterSetSequence (n : Nat) (idx : Nat) (inner : Inner) :
    Except Err Inner :=
  match inner.inputs.get? idx with
  | none => .error (.Pskt ("input index out of bounds"))
  | some inp =>
    .ok { inner with inputs := inner.inputs.set idx { inp with sequence := some n } }

/-- Modelled from the spec: `Signer::calculate_id` — the transaction id as
a deterministic pure function of the skeleton content (version, lock time,
inputs' outpoints/sequence/sig-op counts, outputs), independent of any
signature data. -/
def calcIdInner (inner : Inner) : Nat :=
  let inputEnc := fun (i : Input) =>
    (i.previousOutpoint.transactionId * 1000003 + i.previousOutpoint.index) * 31
      + (i.sequence.getD 0) * 7 + i.sigOpCount
  let outputEnc := fun (o : Output) =>
    o.value * 13 + o.scriptPublicKey.foldl (fun a b => a * 256 + b + 1) 0
  let base := inner.version * 17 + inner.lockTime
  let withIns := inner.inputs.foldl (fun a i => a * 131 + inputEnc i) base
  inner.outputs.foldl (fun a o => a * 137 + outputEnc o) withIns

/-- Modelled from the spec: `Finalizer::finalize_sync` — runs the signing
callback once on the skeleton; the callback yields one unlocking-script
byte sequence per input, which finalize installs as the inputs' final
script sigs; a successful finalize also records the transaction id in the
skeleton; fails if the callback fails or does not supply exactly one
sequence per input. -/
def finalizeSync (inner : Inner)
    (cb : Inner → Except Err (List (List Nat))) : Except Err Inner :=
  match cb inner with
  | .error e => .error e
  | .ok sigs =>
    if sigs.length = inner.inputs.length then
      .ok { inner with
            inputs := (inner.inputs.zip sigs).map
              (fun p => { p.1 with finalScriptSig := some p.2 }),
            id := some (calcIdInner inner) }
    else .error (.Custom ("signature count mismatch"))

/-- Modelled from the spec: `PSKT<Finalizer>::extractor` — "to_extractor()
requires a prior successful finalize": extraction demands that finalize has
run (the recorded transaction id is present) and produced a complete set of
unlocking scripts (one final script sig per input), failing with
`TxNotFinalized` otherwise; in particular a never-finalized skeleton fails
even when it has zero inputs ("no signatures supplied"). -/
def extractorCheck (inner : Inner) : Except Err Inner :=
  if inner.id.isSome && inner.inputs.all (fun i => i.finalScriptSig.isSome) then
    .ok inner
  else .error .TxNotFinalized

/-- Modelled from the spec: `extract_tx_unchecked` followed by `mass()` —
the consensus-computed mass of the extracted transaction, a deterministic
function of the finalized skeleton (its serialized size, including the
final unlocking scripts) and the network. -/
def txMass (_net : NetworkType) (inner : Inner) : Nat :=
  let inputSize := fun (i : Input) => 40 + (i.finalScriptSig.getD []).length
  let outputSize := fun (o : Output) => 9 + o.scriptPublicKey.length
  12 + (inner.inputs.map inputSize).sum + (inner.outputs.map outputSize).sum

/-- Canonical textual payloads: the text of a role-tagged state (what
`serde_json::to_string` of a `State` yields), the text of a bare skeleton,
or any other text. -/
inductive JsonText where
  | ofState (s : State)
  | ofInner (i : Inner)
  | other (s : String)
  deriving Repr, DecidableEq

/-- Modelled from the spec: `serde_json::from_str::<Inner>` applied to a
textual payload.  The codec "converts the role-tagged state to/from a
canonical textual payload ... preserving exact field semantics across role
variants"; we model the behavior most favorable to round-tripping: a bare
skeleton text yields that skeleton, and the canonical text of a role-tagged
state yields the state's skeleton when it holds one. -/
def parseInner : JsonText → Except Err Inner
  | .ofInner i => .ok i
  | .ofState st =>
    match st.skeleton with
    | some i => .ok i
    | none => .error (.Exception ("missing skeleton in payload"))
  | .other s => .error (.Exception ("invalid JSON: " ++ s))

/-- The dynamic payload accepted by the `new` constructor: a string, a
transaction, the empty (`None`) payload, or anything else. -/
inductive Payload where
  | text (t : JsonText)
  | tx (t : PyTransaction)
  | empty
  | otherObject
  deriving Repr, DecidableEq

/-- `PyPSKT::new(payload)`: a string payload is parsed as a skeleton and
wrapped in `NoOp`; a transaction is converted to a skeleton and wrapped in
`NoOp`; the empty payload yields a default `Creator`; anything else fails
with the "Invalid payload" exception. -/
def new : Payload → Except Err State
  | .text t =>
    match parseInner t with
    | .ok inner => .ok (.NoOp (some inner))
    | .error e => .error e
  | .tx t =>
    match txToInner t with
    | .ok inner => .ok (.NoOp (some inner))
    | .error e => .error e
  | .empty => .ok (.Creator Inner.default)
  | .otherObject => .error (.Exception ("Invalid payload"))

/-- `get_role`: reads the slot under the lock (no take) and renders the
role name; panics if the slot is empty. -/
def get_role (slot : Slot) : Except Err String :=
  match slot with
  | none => .error (.Panic ("called unwrap on a None value"))
  | some st => .ok st.display

/-- `serialize`: reads the slot under the lock (no take) and renders the
role-tagged state as its canonical text; panics if the slot is empty. -/
def serialize (slot : Slot) : Except Err JsonText :=
  match slot with
  | none => .error (.Panic ("called unwrap on a None value"))
  | some st => .ok (.ofState st)

/-- `creator()`: `NoOp(None)` becomes a default `Creator`; `NoOp(Some)`
fails with `CreateNotAllowed`; every other role fails with the wrong-state
error. -/
def creator (slot : Slot) : Slot × Except Err Unit :=
  withTake slot (fun st =>
    match st with
    | .NoOp none => .ok (.Creator Inner.default)
    | .NoOp (some _) => .error .CreateNotAllowed
    | st => .error (.State st.display))

/-- `to_constructor()`. -/
def to_constructor (slot : Slot) : Slot × Except Err Unit :=
  withTake slot (fun st =>
    match st with
    | .NoOp none => .error .NotInitialized
    | .NoOp (some inner) => .ok (.Constructor inner)
    | .Creator inner => .ok (.Constructor inner)
    | st => .error (.State st.display))

/-- `to_updater()`. -/
def to_updater (slot : Slot) : Slot × Except Err Unit :=
  withTake slot (fun st =>
    match st with
    | .NoOp none => .error .NotInitialized
    | .NoOp (some inner) => .ok (.Updater inner)
    | .Constructor inner => .ok (.Updater inner)
    | st => .error (.State st.display))

/-- `to_signer()`. -/
def to_signer (slot : Slot) : Slot × Except Err Unit :=
  withTake slot (fun st =>
    match st with
    | .NoOp none => .error .NotInitialized
    | .NoOp (some inner) => .ok (.Signer inner)
    | .Constructor inner => .ok (.Signer inner)
    | .Updater inner => .ok (.Signer inner)
    | .Combiner inner => .ok (.Signer inner)
    | st => .error (.State st.display))

/-- `to_combiner()`. -/
def to_combiner (slot : Slot) : Slot × Except Err Unit :=
  withTake slot (fun st =>
    match st with
    | .NoOp none => .error .NotInitialized
    | .NoOp (some inner) => .ok (.Combiner inner)
    | .Constructor inner => .ok (.Combiner inner)
    | .Updater inner => .ok (.Combiner inner)
    | .Signer inner => .ok (.Combiner inner)
    | st => .error (.State st.display))

/-- `to_finalizer()`. -/
def to_finalizer (slot : Slot) : Slot × Except Err Unit :=
  withTake slot (fun st =>
    match st with
    | .NoOp none => .error .NotInitialized
    | .NoOp (some inner) => .ok (.Finalizer inner)
    | .Combiner inner => .ok (.Finalizer inner)
    | st => .error (.State st.display))

/-- `to_extractor()`: from `NoOp(Some)` directly; from `Finalizer` through
the completeness check (`TxNotFinalized` on an incomplete finalize). -/
def to_extractor (slot : Slot) : Slot × Except Err Unit :=
  withTake slot (fun st =>
    match st with
    | .NoOp none => .error .NotInitialized
    | .NoOp (some inner) => .ok (.Extractor inner)
    | .Finalizer inner =>
      match extractorCheck inner with
      | .ok inner2 => .ok (.Extractor inner2)
      | .error e => .error e
    | st => .error (.State st.display))

/-- `fallback_lock_time(t)`: Creator-only; sets the fallback lock time flag
consulted later; any other role fails with `ExpectedState("Creator")`. -/
def fallback_lock_time (slot : Slot) (t : Nat) : Slot × Except Err Unit :=
  withTake slot (fun st =>
    match st with
    | .Creator inner => .ok (.Creator { inner with fallbackLockTime := some t })
    | _ => .error (.ExpectedState ("Creator")))

/-- `inputs_modifiable()`: Creator-only; marks the input list modifiable. -/
def inputs_modifiable (slot : Slot) : Slot × Except Err Unit :=
  withTake slot (fun st =>
    match st with
    | .Creator inner => .ok (.Creator { inner with inputsModifiable := true })
    | _ => .error (.ExpectedState ("Creator")))

/-- `outputs_modifiable()`: Creator-only; marks the output list modifiable. -/
def outputs_modifiable (slot : Slot) : Slot × Except Err Unit :=
  withTake slot (fun st =>
    match st with
    | .Creator inner => .ok (.Creator { inner with outputsModifiable := true })
    | _ => .error (.ExpectedState ("Creator")))

/-- `no_more_inputs()`: Constructor-only; freezes the input list. -/
def no_more_inputs (slot : Slot) : Slot × Except Err Unit :=
  withTake slot (fun st =>
    match st with
    | .Constructor inner => .ok (.Constructor { inner with inputsModifiable := false })
    | _ => .error (.ExpectedState ("Constructor")))

/-- `no_more_outputs()`: Constructor-only; freezes the output list. -/
def no_more_outputs (slot : Slot) : Slot × Except Err Unit :=
  withTake slot (fun st =>
    match st with
    | .Constructor inner => .ok (.Constructor { inner with outputsModifiable := false })
    | _ => .error (.ExpectedState ("Constructor")))

/-- `input(input)`: Constructor-only; the client input is converted inside
the role match (after the take), so a failed conversion also leaves the
slot empty; on success the converted input is appended to the skeleton. -/
def input (slot : Slot) (i : PyTransactionInput) : Slot × Except Err Unit :=
  withTake slot (fun st =>
    match st with
    | .Constructor inner =>
      match inputTryInto i with
      | .ok inp => .ok (.Constructor { inner with inputs := inner.inputs ++ [inp] })
      | .error e => .error e
    | _ => .error (.ExpectedState ("Constructor")))

/-- `output(output)`: Constructor-only; appends the output to the
skeleton. -/
def output (slot : Slot) (o : Output) : Slot × Except Err Unit :=
  withTake slot (fun st =>
    match st with
    | .Constructor inner => .ok (.Constructor { inner with outputs := inner.outputs ++ [o] })
    | _ => .error (.ExpectedState ("Constructor")))

/-- `input_and_redeem_script(input, data)`: the client input is converted
and the hex redeem script decoded BEFORE the slot is taken, so those
failures return with the slot untouched; then, Constructor-only, the input
(with the decoded redeem script attached) is appended to the skeleton. -/
def input_and_redeem_script (slot : Slot) (i : PyTransactionInput)
    (data : String) : Slot × Except Err Unit :=
  match inputTryInto i with
  | .error e => (slot, .error e)
  | .ok inp =>
    match hexDecode data with
    | .error m =>
      (slot, .error (.Custom ("Redeem script is not a hex string: " ++ m)))
    | .ok script =>
      withTake slot (fun st =>
        match st with
        | .Constructor inner =>
          .ok (.Constructor
            { inner with inputs := inner.inputs ++ [{ inp with redeemScript := some script }] })
        | _ => .error (.ExpectedState ("Constructor")))

/-- `set_sequence(n, input_index)`: Updater-only; delegates to the
role engine's bounds-checked sequence update. -/
def set_sequence (slot : Slot) (n : Nat) (idx : Nat) : Slot × Except Err Unit :=
  withTake slot (fun st =>
    match st with
    | .Updater inner =>
      match updaterSetSequence n idx inner with
      | .ok inner2 => .ok (.Updater inner2)
      | .error e => .error e
    | _ => .error (.ExpectedState ("Updater")))

/-- `calculate_id()`: reads the slot under the lock WITHOUT taking it (the
slot is returned unchanged); Signer-only, otherwise
`ExpectedState("Signer")`; panics if the slot is empty. -/
def calculate_id (slot : Slot) : Slot × Except Err Nat :=
  match slot with
  | none => (none, .error (.Panic ("called unwrap on a None value")))
  | some st =>
    (some st,
      match st with
      | .Signer inner => .ok (calcIdInner inner)
      | _ => .error (.ExpectedState ("Signer")))

/-- The stub signing callback of `calculate_mass`:
`Ok(vec![vec![0u8, 65]; inner.inputs.len()])` — one copy of the two-element
byte sequence [0x00, 0x41] per input of the skeleton. -/
def massStubCallback (inner : Inner) : Except Err (List (List Nat)) :=
  .ok (List.replicate inner.inputs.length [0, 65])

/-- `calculate_mass(network_id)`: `self.clone()` clones the `Arc`, so the
"cloned" PSKT SHARES the caller's state slot; `to_finalizer` is then run on
that shared slot (mutating it, or emptying it on failure).  The finalizer
state is next cloned out of the slot; the redeem-script check, the stub
finalize, the extractor completeness check and the mass extraction all work
on that detached copy and leave the slot as `to_finalizer` left it. -/
def calculate_mass (slot : Slot) (data : PyNetworkId) : Slot × Except Err Nat :=
  let networkType := data.networkType
  let r1 := to_finalizer slot
  match r1.2 with
  | .error e => (r1.1, .error e)
  | .ok _ =>
    match r1.1 with
    | some (.Finalizer inner) =>
      if inner.inputs.any (fun i => i.redeemScript.isSome) then
        (r1.1, .error (.Custom
          ("Mass calculation is not supported for inputs with redeem scripts")))
      else
        match finalizeSync inner massStubCallback with
        | .error _ => (r1.1, .error (.Custom ("Failed to finalize PSKT")))
        | .ok finalized =>
          match extractorCheck finalized with
          | .error _ => (r1.1, .error .TxNotFinalized)
          | .ok ext => (r1.1, .ok (txMass networkType ext))
    | _ => (r1.1, .error (.Panic ("Finalizer state is not valid")))

/-! Concrete sample values used by witnesses and counterexamples. -/

/-- A sample UTXO entry. -/
def sampleUtxo : UtxoEntry :=
  { amount := 500000000, scriptPublicKey := [118, 169], blockDaaScore := 100,
    isCoinbase := false }

/-- A sample outpoint (`tx1:0`). -/
def sampleOutpoint : Outpoint :=
  { transactionId := 1, index := 0 }

/-- A client input carrying a UTXO entry (so its conversion succeeds). -/
def samplePyInput : PyTransactionInput :=
  { previousOutpoint := sampleOutpoint, signatureScript := none, sequence := 0,
    sigOpCount := 1, utxo := some sampleUtxo }

/-- A client input with no UTXO entry (so its conversion fails). -/
def badPyInput : PyTransactionInput :=
  { previousOutpoint := sampleOutpoint, signatureScript := none, sequence := 0,
    sigOpCount := 1, utxo := none }

/-- The PSKT input slot that `samplePyInput` converts to. -/
def sampleInput : Input :=
  { previousOutpoint := sampleOutpoint, sequence := some 0, sigOpCount := 1,
    redeemScript := none, partialSigs := [], sighashType := 1,
    utxoEntry := sampleUtxo, finalScriptSig := none }

/-- A skeleton with exactly one input and no outputs. -/
def oneInputInner : Inner :=
  { Inner.default with inputs := [sampleInput] }

/-- A skeleton whose single input carries the redeem script `deadbeef`. -/
def redeemInner : Inner :=
  { Inner.default with
    inputs := [{ sampleInput with redeemScript := some [222, 173, 190, 239] }] }

/-- The mainnet network id. -/
def mainnetId : PyNetworkId :=
  { networkType := .Mainnet, suffix := none }

/-- A client transaction with one convertible input and no outputs. -/
def sampleTx : PyTransaction :=
  { version := 0, lockTime := 0, inputs := [samplePyInput], outputs := [] }

/-! Theorems settling the claims. -/

/-- C1: the claim says `calculate_mass` never mutates the caller's object
and is deterministic.  The code violates this: `self.clone()` shares the
`Arc`'d slot, so `to_finalizer` run "on the clone" transitions the caller's
object.  Evaluated at a Combiner-role PSKT with the default skeleton on
mainnet: the first call returns a mass and leaves the object in the
Finalizer role, and a second call on the same object fails with the
wrong-state error instead of returning the same mass. -/
theorem C1_calculate_mass_mutates_caller :
    get_role (some (State.Combiner Inner.default)) = .ok ("Combiner") ∧
    (calculate_mass (some (State.Combiner Inner.default)) mainnetId).2 = .ok 12 ∧
    (calculate_mass (some (State.Combiner Inner.default)) mainnetId).1
      = some (State.Finalizer Inner.default) ∧
    get_role ((calculate_mass (some (State.Combiner Inner.default)) mainnetId).1)
      = .ok ("Finalizer") ∧
    (calculate_mass
        ((calculate_mass (some (State.Combiner Inner.default)) mainnetId).1)
        mainnetId).2
      = .error (.State ("Finalizer")) :=
  ⟨rfl, rfl, rfl, rfl, rfl⟩

/-- C2: the claim says a failed role-scoped operation leaves the slot
holding its pre-call role and skeleton.  The code violates this: every
operation calls `take()` before matching and only `replace`s on success, so
a failed operation leaves the slot empty.  Evaluated at a Creator-role PSKT:
`no_more_inputs` fails with `ExpectedState("Constructor")`, the slot is left
`None`, and the next `get_role` hits the `unwrap` panic. -/
theorem C2_failed_op_leaves_slot_empty :
    (no_more_inputs (some (State.Creator Inner.default))).2
      = .error (.ExpectedState ("Constructor")) ∧
    (no_more_inputs (some (State.Creator Inner.default))).1 = none ∧
    get_role ((no_more_inputs (some (State.Creator Inner.default))).1)
      = .error (.Panic ("called unwrap on a None value")) :=
  ⟨rfl, rfl, rfl⟩

/-- C8: the claim says the stub signing callback supplies one fixed-length
dummy unlocking script per input whose length equals the worst-case
standard signature size.  The code writes `vec![vec![0u8, 65]; n]`, which
builds the TWO-element byte sequence [0x00, 0x41] per input (not a 65-byte
placeholder, which `vec![0u8; 65]` would build).  Evaluated on a one-input
skeleton: the callback yields exactly one sequence, of length 2, and
finalize installs that 2-byte final script. -/
theorem C8_stub_signature_is_two_bytes :
    massStubCallback oneInputInner = .ok [[0, 65]] ∧
    ([0, 65] : List Nat).length = 2 ∧
    (2 : Nat) ≠ 65 ∧
    finalizeSync oneInputInner massStubCallback
      = .ok { oneInputInner with
              inputs := [{ sampleInput with finalScriptSig := some [0, 65] }],
              id := some (calcIdInner oneInputInner) } :=
  ⟨rfl, rfl, by decide, rfl⟩

/-- C9: `calculate_id` reads the state under the lock without taking or
replacing it, so for every state the post-call slot (hence role and
skeleton) equals the pre-call slot; in the Signer role it returns the
deterministic id of the skeleton, and in every other role it returns
`ExpectedState("Signer")`. -/
theorem C9_calculate_id_preserves_state (st : State) :
    (calculate_id (some st)).1 = some st ∧
    get_role ((calculate_id (some st)).1) = get_role (some st) ∧
    ((calculate_id (some st)).2
      = match st with
        | .Signer inner => .ok (calcIdInner inner)
        | _ => .error (.ExpectedState ("Signer"))) := by
  cases st <;> exact ⟨rfl, rfl, rfl⟩

/-- C3 counterexample: the round-trip claim `parse(serialize(x)) == x` fails
on the code.  `new` parses a string payload as a bare skeleton and ALWAYS
wraps it in `NoOp`, so reconstructing a fresh Creator-role PSKT from its
serialization yields a NoOp-role PSKT, not a Creator one. -/
theorem C3_roundtrip_loses_role :
    serialize (some (State.Creator Inner.default))
      = .ok (.ofState (State.Creator Inner.default)) ∧
    new (.text (.ofState (State.Creator Inner.default)))
      = .ok (State.NoOp (some Inner.default)) ∧
    State.NoOp (some Inner.default) ≠ State.Creator Inner.default ∧
    (State.NoOp (some Inner.default)).display
      ≠ (State.Creator Inner.default).display :=
  ⟨rfl, rfl, by decide, by decide⟩

/-- C3 amended: constructing a new PSKT from `serialize(x)` does not restore
`x`'s role — for every state holding a skeleton it yields a PSKT in the
`NoOp` role holding that skeleton content, so the round-trip is exact only
for `NoOp`-with-skeleton states. -/
theorem C3_roundtrip_yields_noop (st : State) (inner : Inner)
    (h : st.skeleton = some inner) :
    ∃ t, serialize (some st) = .ok t ∧
      new (.text t) = .ok (.NoOp (some inner)) ∧
      (State.NoOp (some inner)).display = "NoOp" ∧
      (State.NoOp (some inner)).skeleton = some inner :=
  ⟨.ofState st, rfl, by simp [new, parseInner, h], rfl, rfl⟩

/-- C3 witness: the amended round-trip theorem applied to an Updater-role
PSKT holding the one-input skeleton. -/
theorem C3_roundtrip_yields_noop_witness :
    ∃ t, serialize (some (State.Updater oneInputInner)) = .ok t ∧
      new (.text t) = .ok (.NoOp (some oneInputInner)) ∧
      (State.NoOp (some oneInputInner)).display = "NoOp" ∧
      (State.NoOp (some oneInputInner)).skeleton = some oneInputInner :=
  C3_roundtrip_yields_noop (State.Updater oneInputInner) oneInputInner rfl

/-- C5 counterexample: the claim says `calculate_mass` fails with a `Custom`
error for EVERY PSKT whose skeleton has a redeem-script input.  On a
Constructor-role PSKT with such a skeleton, `to_finalizer` (run before the
redeem-script check) rejects the Constructor role, so `calculate_mass`
fails with the wrong-state error, not a `Custom` one. -/
theorem C5_custom_needs_finalizable_role :
    (calculate_mass (some (State.Constructor redeemInner)) mainnetId).2
      = .error (.State ("Constructor")) ∧
    Err.isCustom (.State ("Constructor")) = false :=
  ⟨rfl, rfl⟩

/-- C5 amended: for every skeleton with at least one redeem-script input
and every network id, `calculate_mass` fails with the descriptive `Custom`
error (no panic) from each role `to_finalizer` accepts — `NoOp` holding the
skeleton, and `Combiner`; from other roles it fails with a non-Custom
wrong-state error before reaching the redeem-script check. -/
theorem C5_redeem_script_custom_error (inner : Inner) (net : PyNetworkId)
    (h : inner.inputs.any (fun i => i.redeemScript.isSome) = true) :
    (calculate_mass (some (State.NoOp (some inner))) net).2
      = .error (.Custom
          ("Mass calculation is not supported for inputs with redeem scripts")) ∧
    (calculate_mass (some (State.Combiner inner)) net).2
      = .error (.Custom
          ("Mass calculation is not supported for inputs with redeem scripts")) := by
  constructor <;> simp [calculate_mass, to_finalizer, withTake, h]

/-- C5 witness: the amended theorem applied to the skeleton whose single
input carries the redeem script `deadbeef`, on mainnet. -/
theorem C5_redeem_script_custom_error_witness :
    (calculate_mass (some (State.NoOp (some redeemInner))) mainnetId).2
      = .error (.Custom
          ("Mass calculation is not supported for inputs with redeem scripts")) ∧
    (calculate_mass (some (State.Combiner redeemInner)) mainnetId).2
      = .error (.Custom
          ("Mass calculation is not supported for inputs with redeem scripts")) :=
  C5_redeem_script_custom_error redeemInner mainnetId rfl

/-- C10: in `input_and_redeem_script`, the input conversion and the hex
decoding of the redeem script happen BEFORE the slot is taken, so either
failure returns an error with the slot (role and skeleton) unchanged. -/
theorem C10_redeem_script_errors_preserve_state (slot : Slot)
    (i : PyTransactionInput) (s : String) (e : Err) (m : String) :
    (inputTryInto i = .error e →
      input_and_redeem_script slot i s = (slot, .error e)) ∧
    (∀ inp, inputTryInto i = .ok inp → hexDecode s = .error m →
      input_and_redeem_script slot i s
        = (slot, .error (.Custom ("Redeem script is not a hex string: " ++ m)))) := by
  constructor
  · intro h
    simp [input_and_redeem_script, h]
  · intro inp h1 h2
    simp [input_and_redeem_script, h1, h2]

/-- C10 witness: on a Constructor-role PSKT, an input without a UTXO entry
and a non-hex redeem script each fail with the slot untouched. -/
theorem C10_redeem_script_errors_preserve_state_witness :
    input_and_redeem_script (some (State.Constructor Inner.default)) badPyInput "zz"
      = (some (State.Constructor Inner.default),
         .error (.ConsensusClient ("missing utxo entry"))) ∧
    input_and_redeem_script (some (State.Constructor Inner.default)) samplePyInput "zz"
      = (some (State.Constructor Inner.default),
         .error (.Custom ("Redeem script is not a hex string: Invalid character"))) :=
  ⟨(C10_redeem_script_errors_preserve_state (some (State.Constructor Inner.default))
      badPyInput "zz" (.ConsensusClient ("missing utxo entry")) "Invalid character").1 rfl,
   (C10_redeem_script_errors_preserve_state (some (State.Constructor Inner.default))
      samplePyInput "zz" (.ConsensusClient ("missing utxo entry")) "Invalid character").2
      sampleInput rfl rfl⟩

/-- C4 counterexample: the claim says every non-listed (role, operation)
pair fails with `ExpectedState`/`WrongRole` (with the single exception of
`creator()` on an imported `NoOp`).  But `to_updater` on `NoOp(None)` — a
pair the transition table does not list — fails with `NotInitialized`,
which is neither of those role errors (nor `CreateNotAllowed`). -/
theorem C4_noop_transition_fails_not_initialized :
    (to_updater (some (State.NoOp none))).2 = .error Err.NotInitialized ∧
    Err.isRoleErr Err.NotInitialized = false ∧
    Err.NotInitialized ≠ Err.CreateNotAllowed :=
  ⟨rfl, rfl, by decide⟩

/-- C4 amended: the full transition table.  Every listed transition
succeeds and produces the named role — `Finalizer → to_extractor` under the
table's own precondition that finalize completed successfully (a recorded
id and a complete set of final unlocking scripts), failing with
`TxNotFinalized` otherwise, so a never-finalized zero-input Finalizer fails
as the spec's scenario demands; `creator()` on `NoOp` holding a skeleton
fails with `CreateNotAllowed`; every OTHER transition invoked on `NoOp`
without a skeleton fails with `NotInitialized`; all remaining non-listed
(role, operation) pairs fail with the wrong-state error carrying the
observed role name. -/
theorem C4_transition_table (inner : Inner) :
    creator (some (State.NoOp none)) = (some (State.Creator Inner.default), .ok ()) ∧
    creator (some (State.NoOp (some inner))) = (none, .error Err.CreateNotAllowed) ∧
    creator (some (State.Creator inner)) = (none, .error (.State ("Creator"))) ∧
    creator (some (State.Constructor inner)) = (none, .error (.State ("Constructor"))) ∧
    creator (some (State.Updater inner)) = (none, .error (.State ("Updater"))) ∧
    creator (some (State.Signer inner)) = (none, .error (.State ("Signer"))) ∧
    creator (some (State.Combiner inner)) = (none, .error (.State ("Combiner"))) ∧
    creator (some (State.Finalizer inner)) = (none, .error (.State ("Finalizer"))) ∧
    creator (some (State.Extractor inner)) = (none, .error (.State ("Extractor"))) ∧
    to_constructor (some (State.NoOp none)) = (none, .error Err.NotInitialized) ∧
    to_constructor (some (State.NoOp (some inner))) = (some (State.Constructor inner), .ok ()) ∧
    to_constructor (some (State.Creator inner)) = (some (State.Constructor inner), .ok ()) ∧
    to_constructor (some (State.Constructor inner)) = (none, .error (.State ("Constructor"))) ∧
    to_constructor (some (State.Updater inner)) = (none, .error (.State ("Updater"))) ∧
    to_constructor (some (State.Signer inner)) = (none, .error (.State ("Signer"))) ∧
    to_constructor (some (State.Combiner inner)) = (none, .error (.State ("Combiner"))) ∧
    to_constructor (some (State.Finalizer inner)) = (none, .error (.State ("Finalizer"))) ∧
    to_constructor (some (State.Extractor inner)) = (none, .error (.State ("Extractor"))) ∧
    to_updater (some (State.NoOp none)) = (none, .error Err.NotInitialized) ∧
    to_updater (some (State.NoOp (some inner))) = (some (State.Updater inner), .ok ()) ∧
    to_updater (some (State.Creator inner)) = (none, .error (.State ("Creator"))) ∧
    to_updater (some (State.Constructor inner)) = (some (State.Updater inner), .ok ()) ∧
    to_updater (some (State.Updater inner)) = (none, .error (.State ("Updater"))) ∧
    to_updater (some (State.Signer inner)) = (none, .error (.State ("Signer"))) ∧
    to_updater (some (State.Combiner inner)) = (none, .error (.State ("Combiner"))) ∧
    to_updater (some (State.Finalizer inner)) = (none, .error (.State ("Finalizer"))) ∧
    to_updater (some (State.Extractor inner)) = (none, .error (.State ("Extractor"))) ∧
    to_signer (some (State.NoOp none)) = (none, .error Err.NotInitialized) ∧
    to_signer (some (State.NoOp (some inner))) = (some (State.Signer inner), .ok ()) ∧
    to_signer (some (State.Creator inner)) = (none, .error (.State ("Creator"))) ∧
    to_signer (some (State.Constructor inner)) = (some (State.Signer inner), .ok ()) ∧
    to_signer (some (State.Updater inner)) = (some (State.Signer inner), .ok ()) ∧
    to_signer (some (State.Signer inner)) = (none, .error (.State ("Signer"))) ∧
    to_signer (some (State.Combiner inner)) = (some (State.Signer inner), .ok ()) ∧
    to_signer (some (State.Finalizer inner)) = (none, .error (.State ("Finalizer"))) ∧
    to_signer (some (State.Extractor inner)) = (none, .error (.State ("Extractor"))) ∧
    to_combiner (some (State.NoOp none)) = (none, .error Err.NotInitialized) ∧
    to_combiner (some (State.NoOp (some inner))) = (some (State.Combiner inner), .ok ()) ∧
    to_combiner (some (State.Creator inner)) = (none, .error (.State ("Creator"))) ∧
    to_combiner (some (State.Constructor inner)) = (some (State.Combiner inner), .ok ()) ∧
    to_combiner (some (State.Updater inner)) = (some (State.Combiner inner), .ok ()) ∧
    to_combiner (some (State.Signer inner)) = (some (State.Combiner inner), .ok ()) ∧
    to_combiner (some (State.Combiner inner)) = (none, .error (.State ("Combiner"))) ∧
    to_combiner (some (State.Finalizer inner)) = (none, .error (.State ("Finalizer"))) ∧
    to_combiner (some (State.Extractor inner)) = (none, .error (.State ("Extractor"))) ∧
    to_finalizer (some (State.NoOp none)) = (none, .error Err.NotInitialized) ∧
    to_finalizer (some (State.NoOp (some inner))) = (some (State.Finalizer inner), .ok ()) ∧
    to_finalizer (some (State.Creator inner)) = (none, .error (.State ("Creator"))) ∧
    to_finalizer (some (State.Constructor inner)) = (none, .error (.State ("Constructor"))) ∧
    to_finalizer (some (State.Updater inner)) = (none, .error (.State ("Updater"))) ∧
    to_finalizer (some (State.Signer inner)) = (none, .error (.State ("Signer"))) ∧
    to_finalizer (some (State.Combiner inner)) = (some (State.Finalizer inner), .ok ()) ∧
    to_finalizer (some (State.Finalizer inner)) = (none, .error (.State ("Finalizer"))) ∧
    to_finalizer (some (State.Extractor inner)) = (none, .error (.State ("Extractor"))) ∧
    to_extractor (some (State.NoOp none)) = (none, .error Err.NotInitialized) ∧
    to_extractor (some (State.NoOp (some inner))) = (some (State.Extractor inner), .ok ()) ∧
    to_extractor (some (State.Creator inner)) = (none, .error (.State ("Creator"))) ∧
    to_extractor (some (State.Constructor inner)) = (none, .error (.State ("Constructor"))) ∧
    to_extractor (some (State.Updater inner)) = (none, .error (.State ("Updater"))) ∧
    to_extractor (some (State.Signer inner)) = (none, .error (.State ("Signer"))) ∧
    to_extractor (some (State.Combiner inner)) = (none, .error (.State ("Combiner"))) ∧
    to_extractor (some (State.Extractor inner)) = (none, .error (.State ("Extractor"))) ∧
    to_extractor (some (State.Finalizer inner))
      = (if inner.id.isSome && inner.inputs.all (fun i => i.finalScriptSig.isSome)
         then (some (State.Extractor inner), .ok ())
         else (none, .error Err.TxNotFinalized)) ∧
    to_extractor (some (State.Finalizer Inner.default))
      = (none, .error Err.TxNotFinalized) := by
  repeat' apply And.intro
  all_goals
    first
      | rfl
      | (by_cases h :
            (inner.id.isSome
              && inner.inputs.all (fun i => i.finalScriptSig.isSome)) = true <;>
          simp [to_extractor, withTake, extractorCheck, h])

/-- C6: constructor dispatch of `new` — the empty payload yields a
Creator-role PSKT with the empty default skeleton; a transaction that
converts yields `NoOp` holding the imported skeleton; a textual payload
that parses yields `NoOp` holding the parsed skeleton; any other input
fails with the "Invalid payload" exception. -/
theorem C6_new_dispatch (t : JsonText) (txv : PyTransaction)
    (innerT innerX : Inner) :
    (new Payload.empty = .ok (State.Creator Inner.default) ∧
      (State.Creator Inner.default).display = "Creator" ∧
      Inner.default.inputs = [] ∧ Inner.default.outputs = []) ∧
    (txToInner txv = .ok innerX → new (.tx txv) = .ok (State.NoOp (some innerX))) ∧
    (parseInner t = .ok innerT → new (.text t) = .ok (State.NoOp (some innerT))) ∧
    new Payload.otherObject = .error (.Exception ("Invalid payload")) := by
  refine ⟨⟨rfl, rfl, rfl, rfl⟩, ?_, ?_, rfl⟩
  · intro h
    simp [new, h]
  · intro h
    simp [new, h]

/-- C6 witness: the dispatch theorem applied to the sample one-input
transaction and the one-input skeleton payload. -/
theorem C6_new_dispatch_witness :
    (new Payload.empty = .ok (State.Creator Inner.default) ∧
      (State.Creator Inner.default).display = "Creator" ∧
      Inner.default.inputs = [] ∧ Inner.default.outputs = []) ∧
    new (.tx sampleTx) = .ok (State.NoOp (some oneInputInner)) ∧
    new (.text (.ofInner oneInputInner)) = .ok (State.NoOp (some oneInputInner)) ∧
    new Payload.otherObject = .error (.Exception ("Invalid payload")) :=
  ⟨(C6_new_dispatch (.ofInner oneInputInner) sampleTx oneInputInner oneInputInner).1,
   (C6_new_dispatch (.ofInner oneInputInner) sampleTx oneInputInner oneInputInner).2.1 rfl,
   (C6_new_dispatch (.ofInner oneInputInner) sampleTx oneInputInner oneInputInner).2.2.1 rfl,
   (C6_new_dispatch (.ofInner oneInputInner) sampleTx oneInputInner oneInputInner).2.2.2⟩

/-- C7: in the Updater role, `set_sequence(n, input_index)` succeeds
exactly when the index is in bounds — updating that input's sequence
number in place — and fails when the index is out of bounds (an index is
out of bounds iff it is at least the number of inputs). -/
theorem C7_set_sequence_bounds (inner : Inner) (n idx : Nat) (inp : Input) :
    (inner.inputs.get? idx = some inp →
      set_sequence (some (State.Updater inner)) n idx
        = (some (State.Updater
            { inner with
              inputs := inner.inputs.set idx { inp with sequence := some n } }),
           .ok ())) ∧
    (inner.inputs.get? idx = none →
      set_sequence (some (State.Updater inner)) n idx
        = (none, .error (.Pskt ("input index out of bounds")))) ∧
    (inner.inputs.get? idx = none ↔ inner.inputs.length ≤ idx) := by
  refine ⟨?_, ?_, List.get?_eq_none⟩
  · intro h
    rw [List.get?_eq_getElem?] at h
    simp [set_sequence, withTake, updaterSetSequence, h]
  · intro h
    rw [List.get?_eq_getElem?] at h
    simp [set_sequence, withTake, updaterSetSequence, h]

/-- C7 witness: after adding exactly one input, `set_sequence(5, 0)`
succeeds and updates the input's sequence, while `set_sequence(5, 1)`
fails. -/
theorem C7_set_sequence_bounds_witness :
    set_sequence (some (State.Updater oneInputInner)) 5 0
      = (some (State.Updater
          { oneInputInner with
            inputs := [{ sampleInput with sequence := some 5 }] }),
         .ok ()) ∧
    set_sequence (some (State.Updater oneInputInner)) 5 1
      = (none, .error (.Pskt ("input index out of bounds"))) :=
  ⟨(C7_set_sequence_bounds oneInputInner 5 0 sampleInput).1 rfl,
   (C7_set_sequence_bounds oneInputInner 5 1 sampleInput).2.1 rfl⟩

end KaspaPSKT
